import Mathlib

set_option autoImplicit false

/-
Verification development for the erold-dev/mcp-server HTTP client layer:
a shallow embedding of src/lib/errors.ts, src/lib/config.ts and
src/lib/api-client.ts (error taxonomy, configuration accessor, request
engine with retry/backoff, query building, header construction, and the
projects resource accessor), together with theorems settling the spec
claims about them.
-/

namespace EroldMcp

/-- JSON values as produced by response.json() / consumed by JSON.stringify.
Numbers are modelled as integers (all numeric payloads in the code and
claims are integral). -/
inductive Json where
  | null
  | bool (b : Bool)
  | num (n : Int)
  | str (s : String)
  | arr (elems : List Json)
  | obj (fields : List (String × Json))

/-- First binding of a key in a field list (JS objects have unique keys;
property lookup returns the binding). -/
def lookupField : List (String × Json) → String → Option Json
  | [], _ => none
  | (k, v) :: rest, key => if k = key then some v else lookupField rest key

/-- Property access value?.key : none models undefined, which is also the
result of property access on any non-object. -/
def Json.getField : Json → String → Option Json
  | .obj fields, key => lookupField fields key
  | _, _ => none

/-- JS truthiness of a JSON value. -/
def Json.truthy : Json → Bool
  | .null => false
  | .bool b => b
  | .num n => n != 0
  | .str s => s != ""
  | .arr _ => true
  | .obj _ => true

mutual
/-- JS String(value) coercion of a JSON value (array join semantics for
arrays, the fixed object placeholder for plain objects). -/
def Json.toJsString : Json → String
  | .null => "null"
  | .bool b => if b then "true" else "false"
  | .num n => toString n
  | .str s => s
  | .arr xs => jsJoinList xs
  | .obj _ => "[object Object]"

/-- Array.prototype.join with a comma: null elements render as empty. -/
def jsJoinList : List Json → String
  | [] => ""
  | [x] => match x with
    | .null => ""
    | y => Json.toJsString y
  | x :: xs =>
    (match x with
     | .null => ""
     | y => Json.toJsString y) ++ "," ++ jsJoinList xs
end

-- =========================================================================
-- Error taxonomy (src/lib/errors.ts)
-- =========================================================================

/-- Thrown JS values: the ApiError class (name ApiError, carries statusCode
and optional details), the ConfigError class (name ConfigError), any other
Error instance identified by its name, or a thrown non-Error value. -/
inductive JsError where
  | api (message : String) (statusCode : Nat) (details : Option Json)
  | config (message : String)
  | err (name : String) (message : String)
  | nonError (value : Json)

/-- Desugaring of: error instanceof ConfigError. -/
def JsError.isConfigError : JsError → Bool
  | .config _ => true
  | _ => false

/-- isRetryableError from errors.ts: ApiError with statusCode at least 500
or exactly 429; otherwise any Error whose name is AbortError; otherwise
false. -/
def isRetryableError : JsError → Bool
  | .api _ statusCode _ => decide (500 ≤ statusCode) || decide (statusCode = 429)
  | .config _ => false
  | .err name _ => name == "AbortError"
  | .nonError _ => false

/-- JS x || d for an optional number argument: none models undefined or NaN
(both falsy, both replaced by the default, as is zero). -/
def jsOrNum (x : Option Int) (d : Int) : Int :=
  match x with
  | some k => if k = 0 then d else k
  | none => d

/-- ApiError.rateLimited from errors.ts: message interpolates
retryAfter || 60, status 429, no details. -/
def rateLimited (retryAfter : Option Int) : JsError :=
  .api ("Rate limited. Try again in " ++ toString (jsOrNum retryAfter 60) ++ " seconds.")
    429 none

-- =========================================================================
-- Configuration (src/lib/config.ts)
-- =========================================================================

/-- The three environment variables read by getConfig; none models an unset
variable. -/
structure Env where
  yetApiKey : Option String
  yetTenant : Option String
  yetApiUrl : Option String
  deriving DecidableEq, Repr

structure ApiConfig where
  apiUrl : String
  apiKey : String
  tenant : String
  deriving DecidableEq, Repr

def DEFAULT_API_URL : String := "https://api.yet.watch/api/v1"

/-- JS truthiness of an environment variable: unset or empty is falsy. -/
def envTruthy : Option String → Bool
  | none => false
  | some s => s != ""

def apiKeyRequiredMsg : String :=
  "YET_API_KEY environment variable is required.\n" ++
    "Get your API key from: Settings > API Keys in Yet.Project"

def tenantRequiredMsg : String :=
  "YET_TENANT environment variable is required.\n" ++
    "Set this to your tenant ID or slug."

/-- getConfig from config.ts: throws a plain Error (name Error) when the
API key or tenant is missing or empty; the base URL falls back to
DEFAULT_API_URL when unset or empty. -/
def getConfig (env : Env) : Except JsError ApiConfig :=
  if envTruthy env.yetApiKey = false then
    .error (.err "Error" apiKeyRequiredMsg)
  else if envTruthy env.yetTenant = false then
    .error (.err "Error" tenantRequiredMsg)
  else
    .ok { apiUrl := if envTruthy env.yetApiUrl then env.yetApiUrl.getD "" else DEFAULT_API_URL
          apiKey := env.yetApiKey.getD ""
          tenant := env.yetTenant.getD "" }

-- =========================================================================
-- HTTP request engine (src/lib/api-client.ts, request function)
-- =========================================================================

def MAX_RETRIES : Nat := 3

/-- One mocked network interaction: either a response that fetch resolved
with (status, whether the content-type indicates JSON, the parsed JSON
body, the raw text body used when not JSON, and the retry-after header
value, none meaning absent), or an error fetch rejected with. -/
inductive FetchOutcome where
  | resp (status : Nat) (isJson : Bool) (body : Json) (text : String)
      (retryAfter : Option String)
  | reject (e : JsError)

/-- Sum of the leading decimal digits of a character list; none when there
is no leading digit. -/
def leadingDigits (cs : List Char) : Option Nat :=
  match cs.takeWhile Char.isDigit with
  | [] => none
  | ds => some (ds.foldl (fun a c => a * 10 + (c.toNat - 48)) 0)

/-- JS parseInt on a string: skip leading whitespace, optional sign, then
leading decimal digits; none models NaN. -/
def parseIntJS (s : String) : Option Int :=
  match s.toList.dropWhile Char.isWhitespace with
  | '-' :: rest => (leadingDigits rest).map (fun n => -(n : Int))
  | '+' :: rest => (leadingDigits rest).map (fun n => (n : Int))
  | cs => (leadingDigits cs).map (fun n => (n : Int))

/-- The argument passed to ApiError.rateLimited by the engine:
retryAfter ? parseInt(retryAfter) : undefined. A present but empty header
string is falsy; none models undefined or NaN. -/
def retryAfterArg (retryAfter : Option String) : Option Int :=
  match retryAfter with
  | some s => if s = "" then none else parseIntJS s
  | none => none

/-- First candidate that is defined and truthy, as JS a || b short-circuit
evaluation over property-access candidates. -/
def firstTruthy : List (Option Json) → Option Json
  | [] => none
  | some v :: rest => if v.truthy then some v else firstTruthy rest
  | none :: rest => firstTruthy rest

/-- Error message extraction for a non-ok response:
errorData?.error?.message || errorData?.message || the HTTP-status
fallback. When the body was not JSON, it is a string and both property
accesses yield undefined. -/
def errorMessage (isJson : Bool) (body : Json) (status : Nat) : String :=
  let c1 := if isJson then (body.getField "error").bind (fun e => e.getField "message") else none
  let c2 := if isJson then body.getField "message" else none
  match firstTruthy [c1, c2] with
  | some v => v.toJsString
  | none => "HTTP " ++ toString status

/-- Structured details extraction: errorData?.error?.details. -/
def errorDetails (isJson : Bool) (body : Json) : Option Json :=
  if isJson then (body.getField "error").bind (fun e => e.getField "details") else none

/-- The logical result the engine resolves with: parsed JSON or raw text. -/
inductive LogicalResult where
  | json (v : Json)
  | text (s : String)

/-- Envelope unwrapping:
responseData?.data !== undefined ? responseData.data : data. A text body
is a string, whose data property is undefined, so it is returned whole.
A JSON field present in a parsed body is never the undefined value. -/
def unwrapBody (isJson : Bool) (body : Json) (text : String) : LogicalResult :=
  if isJson then
    match body.getField "data" with
    | some v => .json v
    | none => .json body
  else .text text

/-- The body of one attempt inside request(): on a response, synthesize the
rate-limit error for 429, raise an ApiError for any non-2xx status,
otherwise unwrap; a fetch rejection is the raised error itself. -/
def attemptResult : FetchOutcome → Except JsError LogicalResult
  | .reject e => .error e
  | .resp status isJson body text retryAfter =>
    if status = 429 then
      .error (rateLimited (retryAfterArg retryAfter))
    else if 200 ≤ status ∧ status < 300 then
      .ok (unwrapBody isJson body text)
    else
      .error (.api (errorMessage isJson body status) status (errorDetails isJson body))

/-- Desugaring of the immediate-raise test in the catch block:
error instanceof ApiError, statusCode in the 400s and not 429. -/
def isClientError : JsError → Bool
  | .api _ statusCode _ =>
    decide (400 ≤ statusCode) && decide (statusCode < 500) && decide (statusCode ≠ 429)
  | _ => false

/-- The catch block replaces lastError with a synthesized 408 ApiError when
the caught error is an AbortError; all other errors are stored as they
are. -/
def normalizeTimeout (e : JsError) : JsError :=
  match e with
  | .err name _ => if name = "AbortError" then .api "Request timed out" 408 none else e
  | _ => e

/-- The retry loop of request(), with remaining = MAX_RETRIES - attempt.
Each iteration consumes one queued fetch outcome; the result pairs the
number of network calls made with the settled outcome of the promise.
The result is none when the queue is exhausted before the loop settles
(behaviour beyond the supplied outcomes is not modelled). -/
def requestLoop : Nat → List FetchOutcome → Option (Nat × Except JsError LogicalResult)
  | _, [] => none
  | remaining, o :: rest =>
    match attemptResult o with
    | .ok v => some (1, .ok v)
    | .error e =>
      if isClientError e then some (1, .error e)
      else if remaining = 0 then some (1, .error (normalizeTimeout e))
      else if isRetryableError e = false then some (1, .error e)
      else
        match requestLoop (remaining - 1) rest with
        | none => none
        | some (n, r) => some (n + 1, r)

/-- request(): the loop starts at attempt 1, so MAX_RETRIES - 1 retries
remain. -/
def request (queue : List FetchOutcome) : Option (Nat × Except JsError LogicalResult) :=
  requestLoop (MAX_RETRIES - 1) queue

/-- Configuration resolution happens on the first line of request(),
before the retry loop: a configuration failure rejects the promise with
zero network calls. -/
def requestWithEnv (env : Env) (queue : List FetchOutcome) :
    Option (Nat × Except JsError LogicalResult) :=
  match getConfig env with
  | .error e => some (0, .error e)
  | .ok _ => request queue

-- =========================================================================
-- Header construction (api-client.ts, request function)
-- =========================================================================

/-- First binding of a key in a string-valued object. -/
def jsLookup (key : String) : List (String × String) → Option String
  | [] => none
  | (k, v) :: rest => if k = key then some v else jsLookup key rest

/-- JS object-literal property write while spreading: an existing key keeps
its position and gets the new value, a new key is appended. -/
def upsert (key value : String) : List (String × String) → List (String × String)
  | [] => [(key, value)]
  | (k, v) :: rest =>
    if k = key then (k, value) :: rest else (k, v) :: upsert key value rest

/-- JS spread of overrides into base. -/
def objSpread (base overrides : List (String × String)) : List (String × String) :=
  overrides.foldl (fun acc kv => upsert kv.1 kv.2 acc) base

def defaultHeaders (apiKey : String) : List (String × String) :=
  [("Content-Type", "application/json"),
   ("X-API-Key", apiKey),
   ("User-Agent", "@erold/mcp-server/0.1.0")]

/-- The headers object built by request(): the three defaults, then the
caller-supplied options.headers spread over them. -/
def buildHeaders (apiKey : String) (overrides : List (String × String)) :
    List (String × String) :=
  objSpread (defaultHeaders apiKey) overrides

-- =========================================================================
-- Query-string construction (api-client.ts, get helper)
-- =========================================================================

/-- Values a Record of unknowns passed as query parameters can hold, as the
accessors use them. -/
inductive JsVal where
  | undef
  | null
  | str (s : String)
  | num (n : Int)
  | bool (b : Bool)
  deriving DecidableEq, Repr

/-- JS String(value) coercion. -/
def JsVal.toStringJS : JsVal → String
  | .undef => "undefined"
  | .null => "null"
  | .str s => s
  | .num n => toString n
  | .bool b => if b then "true" else "false"

/-- The filter in get(): value !== undefined, value !== null, value is not
the empty string. -/
def keepParam : JsVal → Bool
  | .undef => false
  | .null => false
  | .str s => s != ""
  | .num _ => true
  | .bool _ => true

/-- The URLSearchParams content built by get(): kept entries in order, with
values string-coerced. -/
def buildSearchParams (params : List (String × JsVal)) : List (String × String) :=
  params.filterMap (fun kv => if keepParam kv.2 then some (kv.1, kv.2.toStringJS) else none)

/-- searchParams.toString(), modelled at the key-equals-value level
(percent-encoding is not modelled). -/
def queryString (params : List (String × JsVal)) : String :=
  String.intercalate "&" ((buildSearchParams params).map (fun kv => kv.1 ++ "=" ++ kv.2))

/-- The URL built by get(): the endpoint, with a question mark and the
query string appended when the latter is nonempty. -/
def getUrl (endpoint : String) (params : List (String × JsVal)) : String :=
  if queryString params = "" then endpoint else endpoint ++ "?" ++ queryString params

-- =========================================================================
-- Projects resource accessor (api-client.ts, projects)
-- =========================================================================

/-- The typed data argument of projects.create. -/
structure ProjectCreateData where
  name : String
  description : Option String
  slug : Option String
  deriving DecidableEq, Repr

/-- JSON.stringify's view of the spread of the create data: fields in
declaration order, optional fields absent when undefined. -/
def projectDataFields (data : ProjectCreateData) : List (String × Json) :=
  [("name", Json.str data.name)]
    ++ (match data.description with
        | some d => [("description", Json.str d)]
        | none => [])
    ++ (match data.slug with
        | some s => [("slug", Json.str s)]
        | none => [])

/-- The wire body sent by projects.create: the caller data spread into a
fresh object followed by the status binding. The accessor performs no
field renaming; it delegates straight to post. -/
def projectCreateBody (data : ProjectCreateData) : Json :=
  .obj (projectDataFields data ++ [("status", Json.str "planning")])

-- =========================================================================
-- Shared lemmas about the retry loop
-- =========================================================================

theorem attemptResult_ok {s : Nat} (h1 : 200 ≤ s) (h2 : s < 300)
    (j : Bool) (b : Json) (t : String) (ra : Option String) :
    attemptResult (.resp s j b t ra) = .ok (unwrapBody j b t) := by
  have h429 : ¬ s = 429 := by omega
  simp [attemptResult, h429, h1, h2]

theorem attemptResult_http_error {s : Nat} (h429 : s ≠ 429) (hok : ¬ (200 ≤ s ∧ s < 300))
    (j : Bool) (b : Json) (t : String) (ra : Option String) :
    attemptResult (.resp s j b t ra)
      = .error (.api (errorMessage j b s) s (errorDetails j b)) := by
  simp [attemptResult, h429, hok]

theorem attemptResult_429 (j : Bool) (b : Json) (t : String) (ra : Option String) :
    attemptResult (.resp 429 j b t ra) = .error (rateLimited (retryAfterArg ra)) := by
  simp [attemptResult]

theorem requestLoop_ok {o : FetchOutcome} {v : LogicalResult}
    (hv : attemptResult o = .ok v) (remaining : Nat) (rest : List FetchOutcome) :
    requestLoop remaining (o :: rest) = some (1, .ok v) := by
  simp [requestLoop, hv]

theorem requestLoop_client_error {o : FetchOutcome} {e : JsError}
    (he : attemptResult o = .error e) (hc : isClientError e = true)
    (remaining : Nat) (rest : List FetchOutcome) :
    requestLoop remaining (o :: rest) = some (1, .error e) := by
  simp [requestLoop, he, hc]

theorem requestLoop_last_attempt {o : FetchOutcome} {e : JsError}
    (he : attemptResult o = .error e) (hc : isClientError e = false)
    (rest : List FetchOutcome) :
    requestLoop 0 (o :: rest) = some (1, .error (normalizeTimeout e)) := by
  simp [requestLoop, he, hc]

theorem requestLoop_retry {o : FetchOutcome} {e : JsError} {remaining : Nat}
    (he : attemptResult o = .error e) (hc : isClientError e = false)
    (hr : isRetryableError e = true) (hrem : remaining ≠ 0)
    (rest : List FetchOutcome) :
    requestLoop remaining (o :: rest)
      = match requestLoop (remaining - 1) rest with
        | none => none
        | some (n, r) => some (n + 1, r) := by
  simp [requestLoop, he, hc, hr, hrem]

/-- C1: with at most 3 total attempts, a 500 response followed by a 2xx
response settles after exactly two network calls with the second response
unwrapped, and three consecutive 500 responses settle after exactly three
network calls with a rejection carrying an ApiError of status 500. -/
theorem c1_retry_then_success_and_exhaustion :
    (∀ (j1 : Bool) (b1 : Json) (t1 : String) (ra1 : Option String)
       (s2 : Nat) (j2 : Bool) (b2 : Json) (t2 : String) (ra2 : Option String)
       (rest : List FetchOutcome),
       200 ≤ s2 → s2 < 300 →
       request (.resp 500 j1 b1 t1 ra1 :: .resp s2 j2 b2 t2 ra2 :: rest)
         = some (2, .ok (unwrapBody j2 b2 t2)))
    ∧ (∀ (j1 j2 j3 : Bool) (b1 b2 b3 : Json) (t1 t2 t3 : String)
         (ra1 ra2 ra3 : Option String),
       request [.resp 500 j1 b1 t1 ra1, .resp 500 j2 b2 t2 ra2, .resp 500 j3 b3 t3 ra3]
         = some (3, .error (.api (errorMessage j3 b3 500) 500 (errorDetails j3 b3)))) := by
  have h500 : ∀ (j : Bool) (b : Json) (t : String) (ra : Option String),
      attemptResult (.resp 500 j b t ra)
        = .error (.api (errorMessage j b 500) 500 (errorDetails j b)) := by
    intro j b t ra
    exact attemptResult_http_error (by omega) (by omega) j b t ra
  have hclient : ∀ (j : Bool) (b : Json),
      isClientError (.api (errorMessage j b 500) 500 (errorDetails j b)) = false := by
    intro j b; simp [isClientError]
  have hretry : ∀ (j : Bool) (b : Json),
      isRetryableError (.api (errorMessage j b 500) 500 (errorDetails j b)) = true := by
    intro j b; simp [isRetryableError]
  constructor
  · intro j1 b1 t1 ra1 s2 j2 b2 t2 ra2 rest h1 h2
    rw [request, requestLoop_retry (h500 j1 b1 t1 ra1) (hclient j1 b1) (hretry j1 b1)
      (by decide)]
    rw [requestLoop_ok (attemptResult_ok h1 h2 j2 b2 t2 ra2)]
  · intro j1 j2 j3 b1 b2 b3 t1 t2 t3 ra1 ra2 ra3
    rw [request, requestLoop_retry (h500 j1 b1 t1 ra1) (hclient j1 b1) (hretry j1 b1)
      (by decide)]
    rw [show MAX_RETRIES - 1 - 1 = 1 from rfl,
      requestLoop_retry (h500 j2 b2 t2 ra2) (hclient j2 b2) (hretry j2 b2) (by decide)]
    rw [show (1 : Nat) - 1 = 0 from rfl,
      requestLoop_last_attempt (h500 j3 b3 t3 ra3) (hclient j3 b3)]
    rfl

/-- Witness for C1 at concrete responses. -/
theorem c1_witness :
    request [.resp 500 true (Json.obj []) "" none,
             .resp 200 true (Json.obj [("data", Json.num 7)]) "" none]
        = some (2, .ok (unwrapBody true (Json.obj [("data", Json.num 7)]) ""))
    ∧ request [.resp 500 true (Json.obj []) "" none,
               .resp 500 true (Json.obj []) "" none,
               .resp 500 true (Json.obj []) "" none]
        = some (3, .error (.api (errorMessage true (Json.obj []) 500) 500
            (errorDetails true (Json.obj [])))) :=
  ⟨c1_retry_then_success_and_exhaustion.1 true (Json.obj []) "" none
      200 true (Json.obj [("data", Json.num 7)]) "" none [] (by decide) (by decide),
   c1_retry_then_success_and_exhaustion.2 true true true
      (Json.obj []) (Json.obj []) (Json.obj []) "" "" "" none none none⟩

/-- C2: a response with a 4xx status other than 429 settles the request
after exactly one network call, regardless of how many attempts remain,
rejecting with an ApiError carrying that status; when the JSON body has a
truthy error.message string, that string is the error message. -/
theorem c2_client_error_no_retry :
    ∀ (s : Nat), 400 ≤ s → s < 500 → s ≠ 429 →
    ∀ (j : Bool) (b : Json) (t : String) (ra : Option String) (rest : List FetchOutcome),
      request (.resp s j b t ra :: rest)
        = some (1, .error (.api (errorMessage j b s) s (errorDetails j b)))
      ∧ (∀ m : String, j = true →
          (b.getField "error").bind (fun e => e.getField "message") = some (.str m) →
          m ≠ "" → errorMessage j b s = m) := by
  intro s h1 h2 h3 j b t ra rest
  constructor
  · have he := attemptResult_http_error h3 (by omega) j b t ra
    have hc : isClientError (.api (errorMessage j b s) s (errorDetails j b)) = true := by
      simp only [isClientError, Bool.and_eq_true, decide_eq_true_eq]
      omega
    simp only [request]
    exact requestLoop_client_error he hc _ rest
  · intro m hj hm hne
    subst hj
    simp [errorMessage, hm, firstTruthy, Json.truthy, Json.toJsString, hne]

/-- Witness for C2 at status 400 with a server-supplied error message. -/
theorem c2_witness :
    request [.resp 400 true
        (Json.obj [("error", Json.obj [("message", Json.str "Validation failed")])]) "" none]
      = some (1, .error (.api
          (errorMessage true (Json.obj [("error", Json.obj [("message", Json.str "Validation failed")])]) 400)
          400
          (errorDetails true (Json.obj [("error", Json.obj [("message", Json.str "Validation failed")])]))))
    ∧ errorMessage true (Json.obj [("error", Json.obj [("message", Json.str "Validation failed")])]) 400
        = "Validation failed" :=
  ⟨(c2_client_error_no_retry 400 (by decide) (by decide) (by decide) true
      (Json.obj [("error", Json.obj [("message", Json.str "Validation failed")])]) "" none []).1,
   (c2_client_error_no_retry 400 (by decide) (by decide) (by decide) true
      (Json.obj [("error", Json.obj [("message", Json.str "Validation failed")])]) "" none []).2
      "Validation failed" rfl rfl (by decide)⟩

/-- C3 counterexample: a supplied retry-after header of 0 seconds yields
the 60-second default message, because the code computes
retryAfter || 60, not a presence test; the claim as stated predicts the
message to read 0 seconds. Inspected through the engine by exhausting all
three attempts on 429 responses carrying the header. -/
theorem c3_counterexample :
    request [.resp 429 true (Json.obj []) "" (some "0"),
             .resp 429 true (Json.obj []) "" (some "0"),
             .resp 429 true (Json.obj []) "" (some "0")]
      = some (3, .error (.api "Rate limited. Try again in 60 seconds." 429 none))
    ∧ "Rate limited. Try again in 60 seconds." ≠ "Rate limited. Try again in 0 seconds." := by
  exact ⟨rfl, by decide⟩

/-- C3 (amended): a 429 response is never terminal before retries are
exhausted, and the synthesized rate-limit ApiError has status 429 and the
message Rate limited. Try again in n seconds., where n is the retry-after
header value when it parses to a nonzero integer, and 60 when the header
is absent (and also, per the counterexample, when it is zero, empty or
unparseable). -/
theorem c3_rate_limit_amended :
    (∀ (b : Json) (t : String) (ra : Option String)
       (s2 : Nat) (j2 : Bool) (b2 : Json) (t2 : String) (ra2 : Option String)
       (rest : List FetchOutcome),
       200 ≤ s2 → s2 < 300 →
       request (.resp 429 true b t ra :: .resp s2 j2 b2 t2 ra2 :: rest)
         = some (2, .ok (unwrapBody j2 b2 t2)))
    ∧ (∀ (s : String) (k : Int), s ≠ "" → parseIntJS s = some k → k ≠ 0 →
       rateLimited (retryAfterArg (some s))
         = .api ("Rate limited. Try again in " ++ toString k ++ " seconds.") 429 none)
    ∧ rateLimited (retryAfterArg none)
        = .api "Rate limited. Try again in 60 seconds." 429 none
    ∧ request [.resp 429 true (Json.obj []) "" (some "5"),
               .resp 429 true (Json.obj []) "" (some "5"),
               .resp 429 true (Json.obj []) "" (some "5")]
        = some (3, .error (.api "Rate limited. Try again in 5 seconds." 429 none)) := by
  have hclient : ∀ x : Option Int, isClientError (rateLimited x) = false := by
    intro x; simp [rateLimited, isClientError]
  have hretry : ∀ x : Option Int, isRetryableError (rateLimited x) = true := by
    intro x; simp [rateLimited, isRetryableError]
  refine ⟨?_, ?_, ?_, ?_⟩
  · intro b t ra s2 j2 b2 t2 ra2 rest h1 h2
    rw [request, requestLoop_retry (attemptResult_429 true b t ra) (hclient _) (hretry _)
      (by decide)]
    rw [requestLoop_ok (attemptResult_ok h1 h2 j2 b2 t2 ra2)]
  · intro s k hs hk hk0
    simp [rateLimited, retryAfterArg, hs, hk, jsOrNum, hk0]
  · rfl
  · rfl

/-- Witness for C3 (amended): a 429 with retry-after 5 followed by a 200
retries, and the synthesized error message reads 5 seconds. -/
theorem c3_witness :
    request [.resp 429 true (Json.obj []) "" (some "5"),
             .resp 200 true (Json.obj []) "" none]
      = some (2, .ok (unwrapBody true (Json.obj []) ""))
    ∧ rateLimited (retryAfterArg (some "5"))
        = .api ("Rate limited. Try again in " ++ toString (5 : Int) ++ " seconds.") 429 none :=
  ⟨c3_rate_limit_amended.1 (Json.obj []) "" (some "5") 200 true (Json.obj []) "" none []
      (by decide) (by decide),
   c3_rate_limit_amended.2.1 "5" 5 (by decide) rfl (by decide)⟩

/-- C4: a 2xx response settles after one network call with the body
unwrapped exactly once: a JSON object with a data field yields exactly
that field value (whatever it is, including null, zero or false), any
other JSON body is returned whole, and a non-JSON response yields the raw
text. -/
theorem c4_unwrap_exactly_once :
    ∀ (s : Nat), 200 ≤ s → s < 300 →
    ∀ (j : Bool) (b : Json) (t : String) (ra : Option String) (rest : List FetchOutcome),
      request (.resp s j b t ra :: rest) = some (1, .ok (unwrapBody j b t))
      ∧ (∀ v : Json, b.getField "data" = some v → unwrapBody true b t = .json v)
      ∧ (b.getField "data" = none → unwrapBody true b t = .json b)
      ∧ unwrapBody false b t = .text t := by
  intro s h1 h2 j b t ra rest
  refine ⟨?_, ?_, ?_, ?_⟩
  · simp only [request]
    exact requestLoop_ok (attemptResult_ok h1 h2 j b t ra) _ rest
  · intro v hv; simp [unwrapBody, hv]
  · intro hv; simp [unwrapBody, hv]
  · simp [unwrapBody]

/-- Witness for C4 with a data field holding null, which must unwrap to
null rather than to the whole body. -/
theorem c4_witness :
    request [.resp 200 true (Json.obj [("data", Json.null)]) "" none]
      = some (1, .ok (unwrapBody true (Json.obj [("data", Json.null)]) ""))
    ∧ unwrapBody true (Json.obj [("data", Json.null)]) "" = .json Json.null :=
  ⟨(c4_unwrap_exactly_once 200 (by decide) (by decide) true
      (Json.obj [("data", Json.null)]) "" none []).1,
   (c4_unwrap_exactly_once 200 (by decide) (by decide) true
      (Json.obj [("data", Json.null)]) "" none []).2.1 Json.null rfl⟩

/-- C5: in the query-parameter list built by get(), an entry whose value is
undefined, null or the empty string contributes nothing (under the unique
keys of a JS Record, its key is absent altogether), and every other entry
appears with its value string-coerced. -/
theorem c5_query_param_filtering :
    ∀ (params : List (String × JsVal)) (k : String) (v : JsVal), (k, v) ∈ params →
      ((v = .undef ∨ v = .null ∨ v = .str "" →
        (params.map Prod.fst).Nodup →
        ∀ s : String, (k, s) ∉ buildSearchParams params)
      ∧ (v ≠ .undef → v ≠ .null → v ≠ .str "" →
        (k, v.toStringJS) ∈ buildSearchParams params)) := by
  intro params k v hmem
  constructor
  · intro hv hnodup s hin
    rw [buildSearchParams, List.mem_filterMap] at hin
    obtain ⟨⟨k2, v2⟩, hmem2, heq⟩ := hin
    by_cases hk : keepParam v2
    · simp only [hk, if_true] at heq
      have hk2 : k2 = k := congrArg Prod.fst (Option.some.inj heq)
      have hsame : (k, v) = (k2, v2) :=
        List.inj_on_of_nodup_map hnodup hmem hmem2 (by simp [hk2])
      have hvv : v2 = v := (Prod.mk.injEq _ _ _ _ ▸ hsame.symm).2
      have hkeep : keepParam v = false := by
        rcases hv with h | h | h <;> subst h <;> rfl
      rw [hvv, hkeep] at hk
      exact Bool.noConfusion hk
    · rw [if_neg hk] at heq
      exact Option.noConfusion heq
  · intro h1 h2 h3
    have hk : keepParam v = true := by
      cases v with
      | undef => exact absurd rfl h1
      | null => exact absurd rfl h2
      | str s =>
        have hs : s ≠ "" := fun h => h3 (by rw [h])
        simp [keepParam, hs]
      | num n => rfl
      | bool b => rfl
    rw [buildSearchParams, List.mem_filterMap]
    exact ⟨(k, v), hmem, by simp [hk]⟩

/-- Witness for C5: an undefined-valued entry is absent, a numeric entry
appears string-coerced. -/
theorem c5_witness :
    ("status", "undefined") ∉ buildSearchParams
        [("limit", JsVal.num 20), ("status", JsVal.undef)]
    ∧ ("limit", "20") ∈ buildSearchParams
        [("limit", JsVal.num 20), ("status", JsVal.undef)] :=
  ⟨(c5_query_param_filtering [("limit", JsVal.num 20), ("status", JsVal.undef)]
      "status" JsVal.undef (by decide)).1 (Or.inl rfl) (by decide) "undefined",
   (c5_query_param_filtering [("limit", JsVal.num 20), ("status", JsVal.undef)]
      "limit" (JsVal.num 20) (by decide)).2 (by decide) (by decide) (by decide)⟩

/-- C6: the retryability classification is true exactly for ApiErrors with
status at least 500 or equal to 429 and for abort/timeout errors (Error
instances named AbortError); it is false for every other ApiError and for
every non-transport error, whether an unrelated Error, a ConfigError or a
thrown non-Error value. -/
theorem c6_isRetryable_classification :
    (∀ (m : String) (s : Nat) (d : Option Json), 500 ≤ s ∨ s = 429 →
       isRetryableError (.api m s d) = true)
    ∧ (∀ (m : String) (s : Nat) (d : Option Json), s < 500 → s ≠ 429 →
       isRetryableError (.api m s d) = false)
    ∧ (∀ m : String, isRetryableError (.err "AbortError" m) = true)
    ∧ (∀ (n m : String), n ≠ "AbortError" → isRetryableError (.err n m) = false)
    ∧ (∀ m : String, isRetryableError (.config m) = false)
    ∧ (∀ v : Json, isRetryableError (.nonError v) = false) := by
  refine ⟨?_, ?_, ?_, ?_, ?_, ?_⟩
  · intro m s d h
    simp only [isRetryableError, Bool.or_eq_true, decide_eq_true_eq]
    exact h
  · intro m s d h1 h2
    simp only [isRetryableError, Bool.or_eq_false_iff, decide_eq_false_iff_not]
    omega
  · intro m; rfl
  · intro n m h; simp [isRetryableError, h]
  · intro m; rfl
  · intro v; rfl

/-- Witness for C6 at the statuses named by the spec. -/
theorem c6_witness :
    isRetryableError (.api "Server error" 500 none) = true
    ∧ isRetryableError (.api "Rate limited" 429 none) = true
    ∧ isRetryableError (.api "Bad request" 400 none) = false
    ∧ isRetryableError (.api "Not found" 404 none) = false
    ∧ isRetryableError (.err "AbortError" "timed out") = true
    ∧ isRetryableError (.err "TypeError" "boom") = false :=
  ⟨c6_isRetryable_classification.1 "Server error" 500 none (Or.inl (by decide)),
   c6_isRetryable_classification.1 "Rate limited" 429 none (Or.inr rfl),
   c6_isRetryable_classification.2.1 "Bad request" 400 none (by decide) (by decide),
   c6_isRetryable_classification.2.1 "Not found" 404 none (by decide) (by decide),
   c6_isRetryable_classification.2.2.1 "timed out",
   c6_isRetryable_classification.2.2.2.1 "TypeError" "boom" (by decide)⟩

/-- C7 counterexample: with the API key missing, getConfig raises a plain
Error (name Error), not the distinct ConfigError kind the claim
requires. -/
theorem c7_counterexample :
    getConfig ⟨none, some "my-tenant", none⟩ = .error (.err "Error" apiKeyRequiredMsg)
    ∧ JsError.isConfigError (.err "Error" apiKeyRequiredMsg) = false :=
  ⟨rfl, rfl⟩

/-- C7 (amended): getConfig fails with a generic Error, not the distinct
ConfigError kind, whenever the API key or the tenant identifier is missing
or empty in the environment; it supplies the default base URL when none is
set; and a configuration failure rejects the request before any network
call (zero fetch outcomes are consumed). -/
theorem c7_config_amended :
    (∀ env : Env, envTruthy env.yetApiKey = false →
       getConfig env = .error (.err "Error" apiKeyRequiredMsg))
    ∧ (∀ env : Env, envTruthy env.yetApiKey = true → envTruthy env.yetTenant = false →
       getConfig env = .error (.err "Error" tenantRequiredMsg))
    ∧ (∀ (k t : String), k ≠ "" → t ≠ "" →
       getConfig ⟨some k, some t, none⟩ = .ok ⟨DEFAULT_API_URL, k, t⟩)
    ∧ (∀ (env : Env) (queue : List FetchOutcome) (e : JsError),
       getConfig env = .error e → requestWithEnv env queue = some (0, .error e)) := by
  refine ⟨?_, ?_, ?_, ?_⟩
  · intro env h; simp [getConfig, h]
  · intro env h1 h2; simp [getConfig, h1, h2]
  · intro k t hk ht
    have h1 : envTruthy (some k) = true := by simp [envTruthy, hk]
    have h2 : envTruthy (some t) = true := by simp [envTruthy, ht]
    simp [getConfig, h1, h2, envTruthy, hk, ht]
  · intro env queue e h; simp [requestWithEnv, h]

/-- Witness for C7 (amended) at concrete environments. -/
theorem c7_witness :
    getConfig ⟨some "key-123", none, none⟩ = .error (.err "Error" tenantRequiredMsg)
    ∧ getConfig ⟨some "key-123", some "acme", none⟩ = .ok ⟨DEFAULT_API_URL, "key-123", "acme"⟩
    ∧ requestWithEnv ⟨some "key-123", none, none⟩ []
        = some (0, .error (.err "Error" tenantRequiredMsg)) :=
  ⟨c7_config_amended.2.1 ⟨some "key-123", none, none⟩ (by decide) (by decide),
   c7_config_amended.2.2.1 "key-123" "acme" (by decide) (by decide),
   c7_config_amended.2.2.2 ⟨some "key-123", none, none⟩ [] _ rfl⟩

/-- C8, evaluated at the failing inputs of the repository's own tests: the
engine resolves a projects list response with the wire objects unchanged
(the element keeps its title field and has no name field), and the body
built by projects.create for a caller-supplied name field carries name,
not title, on the wire. The accessor layer performs no vocabulary
reshaping. -/
theorem c8_no_title_name_reshaping :
    request [.resp 200 true
        (Json.obj [("data", Json.arr [Json.obj
          [("id", Json.str "p1"), ("title", Json.str "My Project"),
           ("status", Json.str "active")]])])
        "" none]
      = some (1, .ok (.json (Json.arr [Json.obj
          [("id", Json.str "p1"), ("title", Json.str "My Project"),
           ("status", Json.str "active")]])))
    ∧ (Json.obj [("id", Json.str "p1"), ("title", Json.str "My Project"),
        ("status", Json.str "active")]).getField "name" = none
    ∧ (projectCreateBody ⟨"New Project", some "Desc", none⟩).getField "title" = none
    ∧ (projectCreateBody ⟨"New Project", some "Desc", none⟩).getField "name"
        = some (Json.str "New Project") :=
  ⟨rfl, rfl, rfl, rfl⟩

-- =========================================================================
-- Lemmas about header spreading
-- =========================================================================

theorem jsLookup_upsert_self (k v : String) :
    ∀ base : List (String × String), jsLookup k (upsert k v base) = some v := by
  intro base
  induction base with
  | nil => simp [upsert, jsLookup]
  | cons kv rest ih =>
    obtain ⟨k0, v0⟩ := kv
    by_cases h : k0 = k
    · subst h; simp [upsert, jsLookup]
    · simp [upsert, jsLookup, h, ih]

theorem jsLookup_upsert_other {key k : String} (h : key ≠ k) (v : String) :
    ∀ base : List (String × String), jsLookup key (upsert k v base) = jsLookup key base := by
  intro base
  induction base with
  | nil =>
    have hk : ¬ k = key := fun hh => h hh.symm
    simp [upsert, jsLookup, hk]
  | cons kv rest ih =>
    obtain ⟨k0, v0⟩ := kv
    by_cases h0 : k0 = k
    · subst h0
      have hk : ¬ k0 = key := fun hh => h hh.symm
      simp [upsert, jsLookup, hk]
    · by_cases h1 : k0 = key
      · subst h1; simp [upsert, jsLookup, h0]
      · simp [upsert, jsLookup, h0, h1, ih]

theorem jsLookup_eq_none_of_not_mem {key : String} :
    ∀ l : List (String × String), key ∉ l.map Prod.fst → jsLookup key l = none := by
  intro l
  induction l with
  | nil => intro _; rfl
  | cons kv rest ih =>
    obtain ⟨k0, v0⟩ := kv
    intro h
    have h0 : ¬ k0 = key := by
      intro hh; exact h (by simp [hh])
    have h1 : key ∉ rest.map Prod.fst := fun hh => h (by simp [hh])
    simp [jsLookup, h0, ih h1]

theorem jsLookup_objSpread :
    ∀ (overrides base : List (String × String)) (key : String),
      (overrides.map Prod.fst).Nodup →
      jsLookup key (objSpread base overrides)
        = match jsLookup key overrides with
          | some v => some v
          | none => jsLookup key base := by
  intro overrides
  induction overrides with
  | nil => intro base key _; simp [objSpread, jsLookup]
  | cons kv tl ih =>
    obtain ⟨k0, v0⟩ := kv
    intro base key hnodup
    have hnodup0 : k0 ∉ tl.map Prod.fst := by
      simp only [List.map_cons, List.nodup_cons] at hnodup
      exact hnodup.1
    have hnodup1 : (tl.map Prod.fst).Nodup := by
      simp only [List.map_cons, List.nodup_cons] at hnodup
      exact hnodup.2
    have hfold : objSpread base ((k0, v0) :: tl) = objSpread (upsert k0 v0 base) tl := rfl
    rw [hfold, ih (upsert k0 v0 base) key hnodup1]
    by_cases hk : k0 = key
    · subst hk
      have htl : jsLookup k0 tl = none := jsLookup_eq_none_of_not_mem tl hnodup0
      simp [jsLookup, htl, jsLookup_upsert_self]
    · have hk2 : key ≠ k0 := fun hh => hk hh.symm
      cases h2 : jsLookup key tl <;>
        simp [jsLookup, hk, h2, jsLookup_upsert_other hk2]

/-- C9 counterexample: the caller-supplied header map is spread after the
defaults, so an override of the API-key header replaces the configured
secret; the claim says the auth header can never be replaced. -/
theorem c9_counterexample :
    jsLookup "X-API-Key" (buildHeaders "secret-key" [("X-API-Key", "attacker-key")])
      = some "attacker-key"
    ∧ jsLookup "X-API-Key" (buildHeaders "secret-key" [("X-API-Key", "attacker-key")])
      ≠ some "secret-key" :=
  ⟨rfl, by decide⟩

/-- C9 (amended): the issued headers always contain bindings for the
content-type, API-key and client-identifier headers; each carries its
default value (JSON content type, the configured secret, the fixed client
string) when the caller does not override it; but caller-supplied headers
override any of the defaults, including the API-key auth header. -/
theorem c9_headers_amended :
    ∀ (apiKey : String) (overrides : List (String × String)),
      (overrides.map Prod.fst).Nodup →
      (jsLookup "Content-Type" (buildHeaders apiKey overrides) ≠ none
       ∧ jsLookup "X-API-Key" (buildHeaders apiKey overrides) ≠ none
       ∧ jsLookup "User-Agent" (buildHeaders apiKey overrides) ≠ none)
      ∧ (jsLookup "X-API-Key" overrides = none →
         jsLookup "X-API-Key" (buildHeaders apiKey overrides) = some apiKey)
      ∧ (jsLookup "Content-Type" overrides = none →
         jsLookup "Content-Type" (buildHeaders apiKey overrides) = some "application/json")
      ∧ (jsLookup "User-Agent" overrides = none →
         jsLookup "User-Agent" (buildHeaders apiKey overrides) = some "@erold/mcp-server/0.1.0")
      ∧ (∀ (k v : String), jsLookup k overrides = some v →
         jsLookup k (buildHeaders apiKey overrides) = some v) := by
  intro apiKey overrides hnodup
  refine ⟨⟨?_, ?_, ?_⟩, ?_, ?_, ?_, ?_⟩
  · rw [buildHeaders, jsLookup_objSpread overrides _ _ hnodup]
    cases h : jsLookup "Content-Type" overrides <;> simp [h, defaultHeaders, jsLookup]
  · rw [buildHeaders, jsLookup_objSpread overrides _ _ hnodup]
    cases h : jsLookup "X-API-Key" overrides <;> simp [h, defaultHeaders, jsLookup]
  · rw [buildHeaders, jsLookup_objSpread overrides _ _ hnodup]
    cases h : jsLookup "User-Agent" overrides <;> simp [h, defaultHeaders, jsLookup]
  · intro h
    rw [buildHeaders, jsLookup_objSpread overrides _ _ hnodup]
    simp [h, defaultHeaders, jsLookup]
  · intro h
    rw [buildHeaders, jsLookup_objSpread overrides _ _ hnodup]
    simp [h, defaultHeaders, jsLookup]
  · intro h
    rw [buildHeaders, jsLookup_objSpread overrides _ _ hnodup]
    simp [h, defaultHeaders, jsLookup]
  · intro k v h
    rw [buildHeaders, jsLookup_objSpread overrides _ _ hnodup]
    simp [h]

/-- Witness for C9 (amended): a non-auth override takes effect while the
untouched API-key header keeps the configured secret. -/
theorem c9_witness :
    jsLookup "X-API-Key" (buildHeaders "secret" [("Content-Type", "text/plain")])
      = some "secret"
    ∧ jsLookup "Content-Type" (buildHeaders "secret" [("Content-Type", "text/plain")])
      = some "text/plain" :=
  ⟨(c9_headers_amended "secret" [("Content-Type", "text/plain")] (by decide)).2.1 rfl,
   (c9_headers_amended "secret" [("Content-Type", "text/plain")] (by decide)).2.2.2.2
      "Content-Type" "text/plain" rfl⟩

/-- C10: for every caller input, the body sent by projects.create is the
caller data spread into a fresh object followed by a status binding fixed
to planning; in particular the wire body's status field is always planning
and the name field is the caller's name unchanged. -/
theorem c10_create_status_planning :
    ∀ data : ProjectCreateData,
      projectCreateBody data
        = Json.obj (projectDataFields data ++ [("status", Json.str "planning")])
      ∧ (projectCreateBody data).getField "status" = some (Json.str "planning")
      ∧ (projectCreateBody data).getField "name" = some (Json.str data.name) := by
  intro data
  obtain ⟨name, description, slug⟩ := data
  refine ⟨rfl, ?_, ?_⟩
  · cases description <;> cases slug <;> rfl
  · cases description <;> cases slug <;> rfl

end EroldMcp
